import Mathlib

/-!
Shallow embedding of `src/app.py` (a Flask service exposing TikTok media
retrieval endpoints `/tiktok/stream` and `/tiktok/mp3`, guarded by JWT auth
and an hourly usage quota), together with proofs checking the design
specification's claims against it.

External effects (the JWT library, the Postgres quota upsert, spawned
subprocesses, the filesystem) are modelled as explicit parameters and
explicit state, following the control flow of the Python source line by line.
-/

namespace TheVideo

/-! ## String helpers (substring search, mirroring `re.search` on literal patterns) -/

/-- `isPrefixL pat l` : `pat` is a prefix of `l` (on character lists). -/
def isPrefixL : List Char → List Char → Bool
  | [], _ => true
  | _ :: _, [] => false
  | a :: as, b :: bs => a == b && isPrefixL as bs

/-- `containsL pat l` : `pat` occurs as a contiguous substring of `l`. -/
def containsL (pat : List Char) : List Char → Bool
  | [] => pat.isEmpty
  | c :: rest => isPrefixL pat (c :: rest) || containsL pat rest

/-- `strContains s pat` : the literal `pat` occurs somewhere in `s`.
This is exactly what `re.search` does for a pattern with no metacharacters
(after `\.` is unescaped to a literal dot). -/
def strContains (s pat : String) : Bool :=
  containsL pat.toList s.toList

/-- Python `s.startswith(pre)`. -/
def pyStartsWith (s pre : String) : Bool :=
  isPrefixL pre.toList s.toList

/-- The whitespace characters removed by Python `str.strip()` (the ASCII
ones; the handlers only ever strip URLs sent as JSON strings). -/
def isPyWs (c : Char) : Bool :=
  c == ' ' || c == '\t' || c == '\n' || c == '\r' || c == '\x0b' || c == '\x0c'

/-- Drop leading whitespace from a character list. -/
def dropLeadingWs : List Char → List Char
  | [] => []
  | c :: rest => if isPyWs c then dropLeadingWs rest else c :: rest

/-- Python `s.strip()`: remove leading and trailing whitespace. -/
def pyStrip (s : String) : String :=
  String.mk ((dropLeadingWs (dropLeadingWs s.toList).reverse).reverse)

/-! ## URL validator (`is_valid_tiktok_url`, app.py lines 123-124)

```python
def is_valid_tiktok_url(url: str) -> bool:
    return bool(re.search(r"(vm\.tiktok\.com|tiktok\.com)", url))
```
The regex has no anchors, so it matches iff one of the two literal
alternatives occurs anywhere in the url string. Pure: no I/O, no state. -/

def is_valid_tiktok_url (url : String) : Bool :=
  strContains url "vm.tiktok.com" || strContains url "tiktok.com"

/-! ## Configuration (app.py line 38) -/

def QUOTA_PER_HOUR : Nat := 30

/-! ## Python truthiness -/

/-- Python truthiness of an optional string: `None` and `""` are falsy
(`if not user_id`, `if not url`). -/
def pyTruthy : Option String → Bool
  | none => false
  | some s => !s.toList.isEmpty

/-! ## Token verification (`verify_jwt_and_get_user`, app.py lines 77-98)

The PyJWT calls are modelled by an oracle `decode : String → DecodeResult`
carried in the request environment: `DecodeResult.ok sub` is a successful
`jwt.decode` returning a payload whose `.get("sub")` is `sub`;
`DecodeResult.exn f` is the signing-key lookup or `jwt.decode` raising,
tagged with which check failed. The Python `try/except` catches every such
exception and returns `None`. -/

/-- Which JWT verification check failed (the cause of the library raising). -/
inductive JwtFailure
  | badSignature
  | badIssuer
  | badAudience
  | expired
  | keyLookupError
  deriving DecidableEq

/-- Outcome of the signing-key lookup plus `jwt.decode` on a given token. -/
inductive DecodeResult
  | ok (subClaim : Option String)
  | exn (f : JwtFailure)

/-- The authentication-relevant part of the incoming request: the raw
`Authorization` header (`request.headers.get("Authorization", "")`, so an
absent header is the empty string) and the JWT library's behaviour. -/
structure AuthEnv where
  authHeader : String
  decode : String → DecodeResult

/-- app.py lines 77-98: reject unless the header starts with `"Bearer "`;
otherwise `token = auth.split(" ", 1)[1]` (everything after the first space,
i.e. `auth.drop 7` given the prefix); decode; any exception is caught and
mapped to `None`; on success return `payload.get("sub")`. -/
def verify_jwt_and_get_user (env : AuthEnv) : Option String :=
  if !pyStartsWith env.authHeader "Bearer " then none
  else
    let token := String.mk (env.authHeader.toList.drop 7)
    match env.decode token with
    | .ok sub => sub
    | .exn _ => none

/-! ## Quota ledger (`increment_usage`, app.py lines 103-118)

The SQL statement is an atomic upsert on `(user_id, hour_bucket)`:
insert with count 1, or increment, `RETURNING count`. For a single request
the ledger state relevant to it is the current count of the caller's
current hour bucket; the upsert maps count `c` to `c + 1` and returns the
post-increment value. -/

/-- `increment_usage`: returns `(new ledger state, returned count)`. -/
def increment_usage (count : Nat) : Nat × Nat := (count + 1, count + 1)

/-! ## Wall-clock time -/

/-- A UTC instant as used by the handlers: `hour` is an absolute hour index
(hours since some epoch), plus the minute/second/microsecond within it. -/
structure UtcTime where
  hour : Nat
  minute : Nat
  second : Nat
  microsecond : Nat
  deriving DecidableEq

/-- `datetime.now(timezone.utc).replace(minute=0, second=0, microsecond=0)`
(app.py lines 156 and 221): the current time truncated to the hour, i.e.
the start of the CURRENT hour. -/
def hourStart (t : UtcTime) : UtcTime :=
  { t with minute := 0, second := 0, microsecond := 0 }

/-- Following the spec's words only (for comparison with what the code
computes): "a `reset_at` equal to the start of the next hour". -/
def nextHourStart (t : UtcTime) : UtcTime :=
  { hour := t.hour + 1, minute := 0, second := 0, microsecond := 0 }

/-! ## HTTP responses -/

/-- A JSON value as produced by the handlers' `jsonify` calls. -/
inductive JsonVal
  | str (s : String)
  | num (n : Nat)
  | time (t : UtcTime)
  deriving DecidableEq

/-- A Python exception escaping a handler (Flask turns it into a 500). -/
inductive PyExn
  | attributeErrorNoneStrip
  deriving DecidableEq

/-- What a handler produces: a `jsonify` response with a status code, a
streaming `Response` (status 200) with its content type and headers, or an
uncaught Python exception. -/
inductive HandlerResult
  | json (status : Nat) (body : List (String × JsonVal))
  | stream (contentType : String) (headers : List (String × String))
  | raised (e : PyExn)
  deriving DecidableEq

/-- The HTTP status the client observes (Flask maps an uncaught exception
to 500 Internal Server Error). -/
def HandlerResult.statusOf : HandlerResult → Nat
  | .json s _ => s
  | .stream _ _ => 200
  | .raised _ => 500

/-! ## Filesystem (temporary directories) -/

/-- The filesystem state relevant to the handlers: the list of existing
temporary directories. -/
abbrev Fs := List String

/-- `shutil.rmtree(temp_dir, ignore_errors=True)`: removes the directory
tree; with `ignore_errors=True` it is total — it never raises, even when the
directory no longer exists. -/
def rmtree_ignore_errors (fs : Fs) (d : String) : Fs :=
  fs.filter (fun x => x != d)

/-! ## Request bodies -/

/-- `request.get_json(silent=True)`: `none` is a missing/unparsable JSON
body (`silent=True` yields `None` instead of raising); `some kvs` is a JSON
object with string values. -/
abbrev JsonBody := Option (List (String × String))

/-- Python `dict.get(key)`: the value, or `None` when absent. -/
def dictGet (k : String) : List (String × String) → Option String
  | [] => none
  | (k2, v) :: rest => if k2.toList == k.toList then some v else dictGet k rest

/-- app.py line 160 (`/tiktok/stream`):
`url = data.get("url") if data else None`. -/
def streamRequestUrl : JsonBody → Option String
  | none => none
  | some d => dictGet "url" d

/-- app.py line 225 (`/tiktok/mp3`):
`url = data.get("url").strip() if data else None`.
The guard `if data` tests Python truthiness, and both `None` and the empty
dict `{}` are falsy, so for an absent body or an empty JSON object the url
is `None`. Only when the body is a NON-empty JSON object without a `"url"`
key does `data.get("url")` evaluate to `None` and `.strip()` raise
`AttributeError`; otherwise the value is stripped of surrounding
whitespace. -/
def mp3RequestUrl : JsonBody → Except PyExn (Option String)
  | none => .ok none
  | some d =>
    if d.isEmpty then .ok none
    else
      match dictGet "url" d with
      | none => .error .attributeErrorNoneStrip
      | some s => .ok (some (pyStrip s))

/-- `if not url or not is_valid_tiktok_url(url)` (app.py lines 161, 226):
`url` falsy (`None` or `""`) or not a supported TikTok URL. -/
def urlFalsyOrInvalid : Option String → Bool
  | none => true
  | some u => u.toList.isEmpty || !is_valid_tiktok_url u

/-- `os.path.exists(p) and os.path.getsize(p) >= n`, where `none` models a
missing file and `some s` a file of `s` bytes. -/
def sizeAtLeast (sz : Option Nat) (n : Nat) : Bool :=
  match sz with
  | none => false
  | some s => n ≤ s

/-! ## `/tiktok/stream` (app.py lines 145-205) -/

/-- Everything outside the process that the `/tiktok/stream` handler
consults: the auth header and JWT library, the caller's current quota bucket
count, the wall clock, the request body, and the outcome of
`extract_info_and_filesize` (`.error msg` = the `yt_dlp` probe raised with
message `msg`; `.ok fsz` = the probe succeeded and reported
`info.get("filesize") or info.get("filesize_approx")`, with `none` for a
source that reports no size). -/
structure StreamEnv where
  auth : AuthEnv
  quota : Nat
  now : UtcTime
  jsonBody : JsonBody
  extractInfo : Except String (Option Nat)

/-- Result of a `/tiktok/stream` request: the HTTP response and the quota
ledger state afterwards. -/
structure StreamOut where
  result : HandlerResult
  quotaAfter : Nat
  deriving DecidableEq

/-- app.py lines 145-205, POST branch:
auth check (401) → `increment_usage` → quota check (429, `reset_at` = now
truncated to the hour) → body/url validation (400) → metadata probe
(500 on failure or unknown/zero size) → streaming `Response` whose
`Content-Length` is the probed size. -/
def tiktok_stream (env : StreamEnv) : StreamOut :=
  let user := verify_jwt_and_get_user env.auth
  if !pyTruthy user then
    { result := .json 401 [("error", .str "Unauthorized")], quotaAfter := env.quota }
  else
    let inc := increment_usage env.quota
    let count := inc.2
    if count > QUOTA_PER_HOUR then
      { result := .json 429 [("error", .str "Quota exceeded"),
                             ("limit", .num QUOTA_PER_HOUR),
                             ("reset_at", .time (hourStart env.now))],
        quotaAfter := inc.1 }
    else
      let url := streamRequestUrl env.jsonBody
      if urlFalsyOrInvalid url then
        { result := .json 400 [("error", .str "Invalid or missing URL")], quotaAfter := inc.1 }
      else
        match env.extractInfo with
        | .error msg =>
          { result := .json 500 [("error", .str msg)], quotaAfter := inc.1 }
        | .ok fsz =>
          match fsz with
          | none =>
            { result := .json 500 [("error", .str "Unable to determine file size")],
              quotaAfter := inc.1 }
          | some n =>
            if n == 0 then
              { result := .json 500 [("error", .str "Unable to determine file size")],
                quotaAfter := inc.1 }
            else
              { result := .stream "video/mp4"
                  [("Content-Disposition", "attachment; filename=tiktok.mp4"),
                   ("Content-Length", toString n),
                   ("Cache-Control", "no-store"),
                   ("Accept-Ranges", "none")],
                quotaAfter := inc.1 }

/-! ## The stream generator's cleanup (app.py lines 182-194)

`generate()` yields 8 KiB chunks from the subprocess's stdout; its `finally`
block runs when the generator is closed — both on normal end-of-stream and
when the HTTP client disconnects mid-stream (Flask closes the generator,
raising `GeneratorExit` at the suspended `yield`). The block performs, in
order: `process.stderr.read()`, `process.stdout.close()`,
`process.stderr.close()`, `process.wait()`, and logs the captured stderr
server-side if the return code was nonzero. -/

/-- An action the handler can take on a spawned subprocess. -/
inductive ProcAction
  | readStderrPipe
  | closeStdoutPipe
  | closeStderrPipe
  | waitExit
  | terminateSignal
  | killSignal
  | logStderrServerSide
  deriving DecidableEq

/-- The exact action sequence of the `finally` block of
`tiktok_stream.generate` (app.py lines 188-194). -/
def streamGenerateCleanup : List ProcAction :=
  [.readStderrPipe, .closeStdoutPipe, .closeStderrPipe, .waitExit, .logStderrServerSide]

/-! ## `/tiktok/mp3` (app.py lines 210-284) -/

/-- Everything outside the process that the `/tiktok/mp3` handler consults.
`downloadOk` is whether the `yt_dlp` subprocess (run with `check=True`)
exited zero; `downloadStderr` its captured stderr; `videoSize` the state of
`video.mp4` afterwards (`none` = missing); likewise `ffmpegOk`,
`ffmpegStderr`, `audioSize` for the transcode step and `audio.mp3`. -/
structure Mp3Env where
  auth : AuthEnv
  quota : Nat
  now : UtcTime
  jsonBody : JsonBody
  downloadOk : Bool
  downloadStderr : String
  videoSize : Option Nat
  ffmpegOk : Bool
  ffmpegStderr : String
  audioSize : Option Nat

/-- Result of a `/tiktok/mp3` request: the HTTP response, the quota ledger
state afterwards, and the filesystem state after the request fully finishes
(for a streaming success this includes the `finally` of `generate()`, which
removes the temp directory once the response body has been sent). -/
structure Mp3Out where
  result : HandlerResult
  quotaAfter : Nat
  fsAfter : Fs
  deriving DecidableEq

/-- app.py lines 210-284, POST branch:
auth check (401) → `increment_usage` → quota check (429) → body/url
validation (`.strip()` raises `AttributeError` on a body without `url`;
otherwise falsy/invalid url → 400) → `tempfile.mkdtemp` → download
subprocess with `check=True` (a `CalledProcessError` is caught at lines
282-284: rmtree, then 500 whose body includes `details = e.stderr`) →
video sanity check `< 1024` bytes (rmtree, 500 "Downloaded video is empty")
→ ffmpeg subprocess with `check=True` (same `except` clause) → audio sanity
check `< 1024` bytes (rmtree, 409 "MP3 extraction failed") → streaming
`Response` with `Content-Length` = the mp3 size; `generate()`'s `finally`
removes the temp directory when the stream ends. -/
def tiktok_mp3 (env : Mp3Env) (fs0 : Fs) (tempDir : String) : Mp3Out :=
  let user := verify_jwt_and_get_user env.auth
  if !pyTruthy user then
    { result := .json 401 [("error", .str "Unauthorized")],
      quotaAfter := env.quota, fsAfter := fs0 }
  else
    let inc := increment_usage env.quota
    let count := inc.2
    if count > QUOTA_PER_HOUR then
      { result := .json 429 [("error", .str "Quota exceeded"),
                             ("limit", .num QUOTA_PER_HOUR),
                             ("reset_at", .time (hourStart env.now))],
        quotaAfter := inc.1, fsAfter := fs0 }
    else
      match mp3RequestUrl env.jsonBody with
      | .error e =>
        { result := .raised e, quotaAfter := inc.1, fsAfter := fs0 }
      | .ok url =>
        if urlFalsyOrInvalid url then
          { result := .json 400 [("error", .str "Invalid or missing URL")],
            quotaAfter := inc.1, fsAfter := fs0 }
        else
          let fs1 := tempDir :: fs0
          if !env.downloadOk then
            { result := .json 500 [("error", .str "Video download or MP3 encoding failed"),
                                   ("details", .str env.downloadStderr)],
              quotaAfter := inc.1, fsAfter := rmtree_ignore_errors fs1 tempDir }
          else if !sizeAtLeast env.videoSize 1024 then
            { result := .json 500 [("error", .str "Downloaded video is empty")],
              quotaAfter := inc.1, fsAfter := rmtree_ignore_errors fs1 tempDir }
          else if !env.ffmpegOk then
            { result := .json 500 [("error", .str "Video download or MP3 encoding failed"),
                                   ("details", .str env.ffmpegStderr)],
              quotaAfter := inc.1, fsAfter := rmtree_ignore_errors fs1 tempDir }
          else if !sizeAtLeast env.audioSize 1024 then
            { result := .json 409 [("error", .str "MP3 extraction failed")],
              quotaAfter := inc.1, fsAfter := rmtree_ignore_errors fs1 tempDir }
          else
            { result := .stream "audio/mpeg"
                [("Content-Disposition", "attachment; filename=tiktok_audio.mp3"),
                 ("Content-Length", toString (env.audioSize.getD 0)),
                 ("Cache-Control", "no-store"),
                 ("Accept-Ranges", "none")],
              quotaAfter := inc.1, fsAfter := rmtree_ignore_errors fs1 tempDir }

/-! ## Helper lemmas -/

/-- A fixed request environment with a successfully verifying token whose
subject claim is `user-1`. -/
def okAuth : AuthEnv :=
  { authHeader := "Bearer tok", decode := fun _ => .ok (some "user-1") }

lemma mem_rmtree_iff (fs : Fs) (d x : String) :
    x ∈ rmtree_ignore_errors fs d ↔ x ∈ fs ∧ x ≠ d := by
  simp [rmtree_ignore_errors, List.mem_filter]

lemma not_mem_rmtree_self (fs : Fs) (d : String) :
    d ∉ rmtree_ignore_errors fs d := by
  simp [mem_rmtree_iff]

lemma containsL_of_isPrefixL_append (p q : List Char) :
    ∀ l : List Char, isPrefixL (p ++ q) l = true → containsL q l = true := by
  induction p with
  | nil =>
    intro l h
    cases l with
    | nil =>
      cases q with
      | nil => rfl
      | cons a as => simp [isPrefixL] at h
    | cons c rest =>
      simp only [List.nil_append] at h
      simp [containsL, h]
  | cons a as ih =>
    intro l h
    cases l with
    | nil => simp [isPrefixL] at h
    | cons c rest =>
      simp only [List.cons_append, isPrefixL, Bool.and_eq_true] at h
      have hrest := ih rest h.2
      simp [containsL, hrest]

lemma containsL_append_right (p q : List Char) :
    ∀ l : List Char, containsL (p ++ q) l = true → containsL q l = true := by
  intro l
  induction l with
  | nil =>
    intro h
    simp only [containsL, List.isEmpty_eq_true, List.append_eq_nil] at h
    simp [containsL, h.1, h.2]
  | cons c rest ih =>
    intro h
    simp only [containsL, Bool.or_eq_true] at h ⊢
    cases h with
    | inl h =>
      have := containsL_of_isPrefixL_append p q (c :: rest) h
      simpa [containsL] using this
    | inr h => exact Or.inr (ih h)

/-! ## Claim C4 — cancellation behaviour of the stream generator -/

/-- Claim C4, counterexample: the claim says the pipeline "actively terminates
the spawned download subprocess" on client disconnect, but the `finally` block
of `tiktok_stream.generate` never sends a termination signal (no
`process.terminate()` or `process.kill()` appears anywhere in the handler):
only pipe reads/closes and `process.wait()`. -/
theorem c4_counterexample :
    ProcAction.terminateSignal ∉ streamGenerateCleanup
    ∧ ProcAction.killSignal ∉ streamGenerateCleanup := by decide

/-- Claim C4, amended: on client disconnect the generator's cleanup reads the
stderr pipe, closes both pipes and waits on the subprocess's exit status (so
no zombie is left), but it never actively terminates the subprocess — it
relies on the subprocess exiting on its own (e.g. from the broken stdout
pipe), and `process.stderr.read()`/`process.wait()` block until it does. -/
theorem c4_wait_without_terminate :
    ProcAction.waitExit ∈ streamGenerateCleanup
    ∧ ProcAction.readStderrPipe ∈ streamGenerateCleanup
    ∧ ProcAction.terminateSignal ∉ streamGenerateCleanup
    ∧ ProcAction.killSignal ∉ streamGenerateCleanup := by decide

/-! ## Claim C6 — the URL validator -/

/-- Claim C6, counterexample: the claim says every URL belonging to an
unrelated domain is rejected, but the validator accepts this URL whose domain
is `evil.com` (the regex is an unanchored substring search, and the literal
`tiktok.com` occurs in the query string). -/
theorem c6_counterexample :
    is_valid_tiktok_url "https://evil.com/watch?ref=tiktok.com" = true := by decide

/-- Claim C6, amended: `is_valid_tiktok_url` is a pure function that holds
exactly when the literal `tiktok.com` occurs anywhere in the URL string. It
therefore accepts the canonical-domain and short-link forms, and rejects URLs
not containing that substring — but it also accepts URLs of unrelated domains
that merely contain the substring elsewhere. -/
theorem c6_validator_is_substring_test (url : String) :
    is_valid_tiktok_url url = strContains url "tiktok.com"
    ∧ is_valid_tiktok_url "https://www.tiktok.com/@user/video/1234567890" = true
    ∧ is_valid_tiktok_url "https://vm.tiktok.com/ZMabcdef/" = true
    ∧ is_valid_tiktok_url "https://m.tiktok.com/v/123.html" = true
    ∧ is_valid_tiktok_url "https://www.youtube.com/watch?v=abc" = false
    ∧ is_valid_tiktok_url "https://example.com/page" = false
    ∧ is_valid_tiktok_url "https://vimeo.com/12345" = false := by
  refine ⟨?_, by decide, by decide, by decide, by decide, by decide, by decide⟩
  unfold is_valid_tiktok_url strContains
  have hsplit : ("vm.tiktok.com".toList) = ("vm.".toList ++ "tiktok.com".toList) := by decide
  cases h : containsL ("tiktok.com".toList) url.toList with
  | true => rw [Bool.or_true]
  | false =>
    have hvm : containsL ("vm.tiktok.com".toList) url.toList = false := by
      cases hv : containsL ("vm.tiktok.com".toList) url.toList with
      | false => rfl
      | true =>
        rw [hsplit] at hv
        have h2 := containsL_append_right ("vm.".toList) ("tiktok.com".toList) url.toList hv
        rw [h2] at h
        exact Bool.noConfusion h
    rw [Bool.or_false, hvm]

/-! ## Claim C9 — idempotent cleanup -/

/-- Claim C9, confirmed: temporary-directory removal
(`shutil.rmtree(temp_dir, ignore_errors=True)`) is idempotent — running it a
second time on the same task's directory changes nothing (and, being invoked
with `ignore_errors=True`, it is a total operation that raises no error) —
and after running it the directory is gone. -/
theorem c9_cleanup_idempotent (fs : Fs) (d : String) :
    rmtree_ignore_errors (rmtree_ignore_errors fs d) d = rmtree_ignore_errors fs d
    ∧ d ∉ rmtree_ignore_errors fs d := by
  constructor
  · simp [rmtree_ignore_errors, List.filter_filter]
  · exact not_mem_rmtree_self fs d

/-! ## Claim C5 — uniform 401 on any verification failure -/

/-- Claim C5, confirmed: whenever token verification fails — absent header,
malformed scheme, or the JWT library raising on any of its checks
(signature/issuer/audience/expiry/key lookup) — both handlers return the one
fixed response `401 {"error": "Unauthorized"}`, identical regardless of the
cause; and `verify_jwt_and_get_user` never lets an exception escape: for
every header, a decode step that raises (with any failure cause `f`) yields
the value `none`, not an exception. -/
theorem c5_uniform_unauthorized :
    (∀ env : StreamEnv, pyTruthy (verify_jwt_and_get_user env.auth) = false →
        (tiktok_stream env).result = .json 401 [("error", .str "Unauthorized")])
    ∧ (∀ (env : Mp3Env) (fs : Fs) (td : String),
        pyTruthy (verify_jwt_and_get_user env.auth) = false →
        (tiktok_mp3 env fs td).result = .json 401 [("error", .str "Unauthorized")])
    ∧ (∀ (hdr : String) (f : JwtFailure),
        verify_jwt_and_get_user { authHeader := hdr, decode := fun _ => .exn f } = none) := by
  refine ⟨?_, ?_, ?_⟩
  · intro env h
    simp [tiktok_stream, h]
  · intro env fs td h
    simp [tiktok_mp3, h]
  · intro hdr f
    unfold verify_jwt_and_get_user
    cases h : pyStartsWith hdr "Bearer " <;> simp [h]

/-- Claim C5, witness: a concrete request whose token's expiry check fails is
answered with the uniform 401 body. -/
theorem c5_witness :
    (tiktok_stream
      { auth := { authHeader := "Bearer expiredtok", decode := fun _ => .exn .expired },
        quota := 0, now := ⟨0, 0, 0, 0⟩, jsonBody := none,
        extractInfo := .ok none }).result
      = .json 401 [("error", .str "Unauthorized")] :=
  c5_uniform_unauthorized.1 _ (by decide)

/-! ## Claim C7 — missing `url` field in a present JSON body -/

/-- A `/tiktok/mp3` request with a valid token, an empty quota bucket, and a
non-empty JSON body that has no `"url"` key. -/
def c7EnvM : Mp3Env :=
  { auth := okAuth, quota := 0, now := ⟨0, 0, 0, 0⟩,
    jsonBody := some [("other", "x")],
    downloadOk := true, downloadStderr := "", videoSize := some 5000,
    ffmpegOk := true, ffmpegStderr := "", audioSize := some 5000 }

/-- The same request sent to `/tiktok/stream`. -/
def c7EnvS : StreamEnv :=
  { auth := okAuth, quota := 0, now := ⟨0, 0, 0, 0⟩,
    jsonBody := some [("other", "x")],
    extractInfo := .ok (some 2048) }

/-- The same `/tiktok/mp3` request but with the empty JSON object `{}` as
body: Python's `if data` guard treats `{}` as falsy, so the `.strip()` is
never reached there. -/
def c7EnvEmpty : Mp3Env := { c7EnvM with jsonBody := some [] }

/-- Claim C7, code bug: on `/tiktok/mp3`, a JSON body that is present,
non-empty and lacks the `url` field makes `data.get("url").strip()` evaluate
`None.strip()`, raising an uncaught `AttributeError` (Flask answers 500),
instead of the specified 400 `InputError`. The sibling `/tiktok/stream`
handler, which omits the `.strip()`, returns the specified 400 on the very
same body — and `/tiktok/mp3` itself returns the 400 for the empty object
`{}`, which the `if data` guard treats as falsy. -/
theorem c7_mp3_raises_on_missing_url_field :
    (tiktok_mp3 c7EnvM [] "/tmp/tiktok_mp3_b").result = .raised .attributeErrorNoneStrip
    ∧ (tiktok_mp3 c7EnvM [] "/tmp/tiktok_mp3_b").result.statusOf = 500
    ∧ (tiktok_stream c7EnvS).result = .json 400 [("error", .str "Invalid or missing URL")]
    ∧ (tiktok_mp3 c7EnvEmpty [] "/tmp/tiktok_mp3_e").result
        = .json 400 [("error", .str "Invalid or missing URL")] := by
  decide

/-! ## Claim C8 — transcoder output sanity check -/

/-- Claim C8, confirmed: on the audio path, once the request reaches the
transcode step (auth passed, quota not exceeded, URL valid, download
subprocess exited zero, downloaded video passed its sanity check) and the
transcoder ran to completion, a missing or sub-1 KiB `audio.mp3` is answered
with `409 {"error": "MP3 extraction failed"}`, and the private temporary
directory is no longer present when the response is returned. -/
theorem c8_encode_failure_409 (env : Mp3Env) (fs : Fs) (td : String) (u : String)
    (hA : pyTruthy (verify_jwt_and_get_user env.auth) = true)
    (hQ : env.quota + 1 ≤ QUOTA_PER_HOUR)
    (hU : mp3RequestUrl env.jsonBody = .ok (some u))
    (hV : urlFalsyOrInvalid (some u) = false)
    (hD : env.downloadOk = true)
    (hVid : sizeAtLeast env.videoSize 1024 = true)
    (hF : env.ffmpegOk = true)
    (hAud : sizeAtLeast env.audioSize 1024 = false) :
    (tiktok_mp3 env fs td).result = .json 409 [("error", .str "MP3 extraction failed")]
    ∧ td ∉ (tiktok_mp3 env fs td).fsAfter := by
  have hQ2 : ¬ (env.quota + 1 > QUOTA_PER_HOUR) := Nat.not_lt.mpr hQ
  refine ⟨?_, ?_⟩ <;>
    simp [tiktok_mp3, increment_usage, hA, hQ2, hU, hV, hD, hVid, hF, hAud, mem_rmtree_iff]

/-- Claim C8, witness: a concrete such request (the transcoder produced a
100-byte `audio.mp3`) gets the 409 and the temp directory is gone. -/
theorem c8_witness :
    (tiktok_mp3
      { auth := okAuth, quota := 3, now := ⟨7, 10, 0, 0⟩,
        jsonBody := some [("url", "https://www.tiktok.com/@user/video/42")],
        downloadOk := true, downloadStderr := "", videoSize := some 5000,
        ffmpegOk := true, ffmpegStderr := "", audioSize := some 100 }
      ["/srv/data"] "/tmp/tiktok_mp3_w").result
      = .json 409 [("error", .str "MP3 extraction failed")]
    ∧ "/tmp/tiktok_mp3_w" ∉ (tiktok_mp3
      { auth := okAuth, quota := 3, now := ⟨7, 10, 0, 0⟩,
        jsonBody := some [("url", "https://www.tiktok.com/@user/video/42")],
        downloadOk := true, downloadStderr := "", videoSize := some 5000,
        ffmpegOk := true, ffmpegStderr := "", audioSize := some 100 }
      ["/srv/data"] "/tmp/tiktok_mp3_w").fsAfter :=
  c8_encode_failure_409 _ _ _ "https://www.tiktok.com/@user/video/42"
    (by decide) (by decide) (by rfl) (by decide) (by decide) (by decide)
    (by decide) (by decide)

/-! ## Claim C10 — downloaded-video sanity check -/

/-- Claim C10, confirmed: on the audio path, when the download subprocess
exited zero but `video.mp4` is missing or smaller than 1 KiB, the handler
removes the temporary directory and returns
`500 {"error": "Downloaded video is empty"}` — a 500, not the 409 used for
transcoder-output failures. -/
theorem c10_empty_download_500 (env : Mp3Env) (fs : Fs) (td : String) (u : String)
    (hA : pyTruthy (verify_jwt_and_get_user env.auth) = true)
    (hQ : env.quota + 1 ≤ QUOTA_PER_HOUR)
    (hU : mp3RequestUrl env.jsonBody = .ok (some u))
    (hV : urlFalsyOrInvalid (some u) = false)
    (hD : env.downloadOk = true)
    (hVid : sizeAtLeast env.videoSize 1024 = false) :
    (tiktok_mp3 env fs td).result = .json 500 [("error", .str "Downloaded video is empty")]
    ∧ (tiktok_mp3 env fs td).result.statusOf ≠ 409
    ∧ td ∉ (tiktok_mp3 env fs td).fsAfter := by
  have hQ2 : ¬ (env.quota + 1 > QUOTA_PER_HOUR) := Nat.not_lt.mpr hQ
  refine ⟨?_, ?_, ?_⟩ <;>
    simp [tiktok_mp3, increment_usage, hA, hQ2, hU, hV, hD, hVid,
          HandlerResult.statusOf, mem_rmtree_iff]

/-- Claim C10, witness: a concrete such request (the downloader exited zero
but left a 200-byte `video.mp4`) gets the 500 and the temp directory is
gone. -/
theorem c10_witness :
    (tiktok_mp3
      { auth := okAuth, quota := 0, now := ⟨7, 10, 0, 0⟩,
        jsonBody := some [("url", "https://vm.tiktok.com/ZMxyz/")],
        downloadOk := true, downloadStderr := "", videoSize := some 200,
        ffmpegOk := true, ffmpegStderr := "", audioSize := none }
      [] "/tmp/tiktok_mp3_v").result
      = .json 500 [("error", .str "Downloaded video is empty")]
    ∧ (tiktok_mp3
      { auth := okAuth, quota := 0, now := ⟨7, 10, 0, 0⟩,
        jsonBody := some [("url", "https://vm.tiktok.com/ZMxyz/")],
        downloadOk := true, downloadStderr := "", videoSize := some 200,
        ffmpegOk := true, ffmpegStderr := "", audioSize := none }
      [] "/tmp/tiktok_mp3_v").result.statusOf ≠ 409
    ∧ "/tmp/tiktok_mp3_v" ∉ (tiktok_mp3
      { auth := okAuth, quota := 0, now := ⟨7, 10, 0, 0⟩,
        jsonBody := some [("url", "https://vm.tiktok.com/ZMxyz/")],
        downloadOk := true, downloadStderr := "", videoSize := some 200,
        ffmpegOk := true, ffmpegStderr := "", audioSize := none }
      [] "/tmp/tiktok_mp3_v").fsAfter :=
  c10_empty_download_500 _ _ _ "https://vm.tiktok.com/ZMxyz/"
    (by decide) (by decide) (by rfl) (by decide) (by decide) (by decide)

/-! ## Claim C1 — ordering of URL validation and quota increment -/

/-- An authenticated `/tiktok/stream` request carrying an unsupported
(YouTube) URL, with an empty quota bucket. -/
def c1Env : StreamEnv :=
  { auth := okAuth, quota := 0, now := ⟨0, 0, 0, 0⟩,
    jsonBody := some [("url", "https://www.youtube.com/watch?v=abc")],
    extractInfo := .ok (some 2048) }

/-- Claim C1, counterexample: an authenticated request with an unsupported
URL is indeed rejected with 400, but its quota counter HAS been incremented
(0 → 1): `increment_usage` runs before the URL check in both handlers, so the
malformed request does consume quota budget, contrary to the claim. -/
theorem c1_counterexample :
    (tiktok_stream c1Env).result = .json 400 [("error", .str "Invalid or missing URL")]
    ∧ c1Env.quota = 0
    ∧ (tiktok_stream c1Env).quotaAfter = 1 := by decide

/-- An authenticated, in-quota `/tiktok/mp3` request whose body is a
non-empty JSON object lacking the `url` field. -/
def c1EnvM : Mp3Env :=
  { auth := okAuth, quota := 0, now := ⟨0, 0, 0, 0⟩,
    jsonBody := some [("other", "x")],
    downloadOk := true, downloadStderr := "", videoSize := some 5000,
    ffmpegOk := true, ffmpegStderr := "", audioSize := some 5000 }

/-- Claim C1, amended: an authenticated, not-yet-over-quota media-retrieval
request whose body is missing a URL or carries an unsupported URL never
reaches media work — `/tiktok/stream` rejects it with 400, and `/tiktok/mp3`
rejects it with 400 except when the body is a present non-empty JSON object
lacking `url`, where the C7 `AttributeError` escapes instead (HTTP 500) —
but in EVERY one of these cases the quota counter has already been
incremented, because URL validation and body handling run after the quota
increment: malformed requests do consume quota budget. -/
theorem c1_amended_quota_charged_before_validation :
    (∀ env : StreamEnv,
       pyTruthy (verify_jwt_and_get_user env.auth) = true →
       env.quota + 1 ≤ QUOTA_PER_HOUR →
       urlFalsyOrInvalid (streamRequestUrl env.jsonBody) = true →
       (tiktok_stream env).result = .json 400 [("error", .str "Invalid or missing URL")]
       ∧ (tiktok_stream env).quotaAfter = env.quota + 1)
    ∧ (∀ (env : Mp3Env) (fs : Fs) (td : String) (u : Option String),
       pyTruthy (verify_jwt_and_get_user env.auth) = true →
       env.quota + 1 ≤ QUOTA_PER_HOUR →
       mp3RequestUrl env.jsonBody = .ok u →
       urlFalsyOrInvalid u = true →
       (tiktok_mp3 env fs td).result = .json 400 [("error", .str "Invalid or missing URL")]
       ∧ (tiktok_mp3 env fs td).quotaAfter = env.quota + 1)
    ∧ (∀ (env : Mp3Env) (fs : Fs) (td : String) (e : PyExn),
       pyTruthy (verify_jwt_and_get_user env.auth) = true →
       env.quota + 1 ≤ QUOTA_PER_HOUR →
       mp3RequestUrl env.jsonBody = .error e →
       (tiktok_mp3 env fs td).result = .raised e
       ∧ (tiktok_mp3 env fs td).quotaAfter = env.quota + 1) := by
  refine ⟨?_, ?_, ?_⟩
  · intro env hA hQ hUrl
    have hQ2 : ¬ (env.quota + 1 > QUOTA_PER_HOUR) := Nat.not_lt.mpr hQ
    refine ⟨?_, ?_⟩ <;> simp [tiktok_stream, increment_usage, hA, hQ2, hUrl]
  · intro env fs td u hA hQ hU hUrl
    have hQ2 : ¬ (env.quota + 1 > QUOTA_PER_HOUR) := Nat.not_lt.mpr hQ
    refine ⟨?_, ?_⟩ <;> simp [tiktok_mp3, increment_usage, hA, hQ2, hU, hUrl]
  · intro env fs td e hA hQ hE
    have hQ2 : ¬ (env.quota + 1 > QUOTA_PER_HOUR) := Nat.not_lt.mpr hQ
    refine ⟨?_, ?_⟩ <;> simp [tiktok_mp3, increment_usage, hA, hQ2, hE]

/-- Claim C1, witness: the amended statement instantiated at the concrete
unsupported-URL request of the counterexample (400, counter charged), and at
a concrete non-empty `/tiktok/mp3` body lacking `url` (the C7 raise — with
the counter charged there too). -/
theorem c1_witness :
    ((tiktok_stream c1Env).result = .json 400 [("error", .str "Invalid or missing URL")]
     ∧ (tiktok_stream c1Env).quotaAfter = c1Env.quota + 1)
    ∧ ((tiktok_mp3 c1EnvM [] "/tmp/tiktok_mp3_m").result = .raised .attributeErrorNoneStrip
       ∧ (tiktok_mp3 c1EnvM [] "/tmp/tiktok_mp3_m").quotaAfter = c1EnvM.quota + 1) :=
  ⟨c1_amended_quota_charged_before_validation.1 c1Env (by decide) (by decide) (by decide),
   c1_amended_quota_charged_before_validation.2.2 c1EnvM [] "/tmp/tiktok_mp3_m"
     .attributeErrorNoneStrip (by decide) (by decide) (by rfl)⟩

/-! ## Claim C2 — subprocess stderr in the response body -/

/-- An authenticated, in-quota `/tiktok/mp3` request whose download
subprocess fails with captured stderr text. -/
def c2Env : Mp3Env :=
  { auth := okAuth, quota := 0, now := ⟨0, 0, 0, 0⟩,
    jsonBody := some [("url", "https://www.tiktok.com/@user/video/42")],
    downloadOk := false,
    downloadStderr := "ERROR: [TikTok] 42: Unable to download webpage",
    videoSize := none, ffmpegOk := true, ffmpegStderr := "", audioSize := none }

/-- Claim C2, counterexample: on the audio path, the captured stderr of the
failed download subprocess is returned verbatim to the client inside the 500
response body's `details` field (app.py line 284), contrary to the claim that
stderr never reaches the client. -/
theorem c2_counterexample :
    (tiktok_mp3 c2Env [] "/tmp/tiktok_mp3_c").result
      = .json 500 [("error", .str "Video download or MP3 encoding failed"),
                   ("details", .str "ERROR: [TikTok] 42: Unable to download webpage")]
    ∧ c2Env.downloadStderr = "ERROR: [TikTok] 42: Unable to download webpage" := by decide

/-- An authenticated, in-quota `/tiktok/mp3` request whose download succeeds
(a sane `video.mp4` lands) but whose ffmpeg transcode subprocess fails with
captured stderr text. -/
def c2EnvF : Mp3Env :=
  { auth := okAuth, quota := 0, now := ⟨0, 0, 0, 0⟩,
    jsonBody := some [("url", "https://www.tiktok.com/@user/video/42")],
    downloadOk := true, downloadStderr := "",
    videoSize := some 5000, ffmpegOk := false,
    ffmpegStderr := "ffmpeg: Invalid data found when processing input",
    audioSize := none }

/-- Claim C2, amended: on the video streaming path the generator's cleanup
only logs the captured stderr server-side, but on the audio path every
request whose download subprocess or transcode subprocess fails receives the
same 500 response (the shared `except CalledProcessError` clause at app.py
lines 282-284) whose body carries that subprocess's captured stderr verbatim
in its `details` field. -/
theorem c2_amended_stderr_leaked_on_audio_path :
    (∀ (env : Mp3Env) (fs : Fs) (td : String) (u : String),
       pyTruthy (verify_jwt_and_get_user env.auth) = true →
       env.quota + 1 ≤ QUOTA_PER_HOUR →
       mp3RequestUrl env.jsonBody = .ok (some u) →
       urlFalsyOrInvalid (some u) = false →
       env.downloadOk = false →
       (tiktok_mp3 env fs td).result
         = .json 500 [("error", .str "Video download or MP3 encoding failed"),
                      ("details", .str env.downloadStderr)])
    ∧ (∀ (env : Mp3Env) (fs : Fs) (td : String) (u : String),
       pyTruthy (verify_jwt_and_get_user env.auth) = true →
       env.quota + 1 ≤ QUOTA_PER_HOUR →
       mp3RequestUrl env.jsonBody = .ok (some u) →
       urlFalsyOrInvalid (some u) = false →
       env.downloadOk = true →
       sizeAtLeast env.videoSize 1024 = true →
       env.ffmpegOk = false →
       (tiktok_mp3 env fs td).result
         = .json 500 [("error", .str "Video download or MP3 encoding failed"),
                      ("details", .str env.ffmpegStderr)])
    ∧ ProcAction.logStderrServerSide ∈ streamGenerateCleanup := by
  refine ⟨?_, ?_, by decide⟩
  · intro env fs td u hA hQ hU hUrl hD
    have hQ2 : ¬ (env.quota + 1 > QUOTA_PER_HOUR) := Nat.not_lt.mpr hQ
    simp [tiktok_mp3, increment_usage, hA, hQ2, hU, hUrl, hD]
  · intro env fs td u hA hQ hU hUrl hD hV hF
    have hQ2 : ¬ (env.quota + 1 > QUOTA_PER_HOUR) := Nat.not_lt.mpr hQ
    simp [tiktok_mp3, increment_usage, hA, hQ2, hU, hUrl, hD, hV, hF]

/-- Claim C2, witness: the amended statement instantiated at the concrete
failing-download request of the counterexample and at a concrete
failing-transcode request — each response carries that subprocess's stderr
verbatim. -/
theorem c2_witness :
    ((tiktok_mp3 c2Env [] "/tmp/tiktok_mp3_c").result
      = .json 500 [("error", .str "Video download or MP3 encoding failed"),
                   ("details", .str c2Env.downloadStderr)])
    ∧ ((tiktok_mp3 c2EnvF [] "/tmp/tiktok_mp3_f").result
      = .json 500 [("error", .str "Video download or MP3 encoding failed"),
                   ("details", .str c2EnvF.ffmpegStderr)]) :=
  ⟨c2_amended_stderr_leaked_on_audio_path.1 c2Env [] "/tmp/tiktok_mp3_c"
    "https://www.tiktok.com/@user/video/42"
    (by decide) (by decide) (by rfl) (by decide) (by decide),
   c2_amended_stderr_leaked_on_audio_path.2.1 c2EnvF [] "/tmp/tiktok_mp3_f"
    "https://www.tiktok.com/@user/video/42"
    (by decide) (by decide) (by rfl) (by decide) (by decide) (by decide) (by decide)⟩

/-! ## Claim C3 — quota threshold and reset time -/

/-- An authenticated `/tiktok/stream` request whose bucket already holds 30
uses (so its post-increment count is 31), arriving at 5:30:15.000250. -/
def c3Env : StreamEnv :=
  { auth := okAuth, quota := 30, now := ⟨5, 30, 15, 250⟩,
    jsonBody := some [("url", "https://www.tiktok.com/@u/video/1")],
    extractInfo := .ok (some 2048) }

/-- Claim C3, counterexample: the over-quota request is rejected with 429
carrying the limit, but its `reset_at` is the start of the CURRENT hour
(`now.replace(minute=0, second=0, microsecond=0)`, here hour 5 sharp), which
differs from the start of the next hour (hour 6 sharp) stated by the claim. -/
theorem c3_counterexample :
    (tiktok_stream c3Env).result
      = .json 429 [("error", .str "Quota exceeded"), ("limit", .num 30),
                   ("reset_at", .time ⟨5, 0, 0, 0⟩)]
    ∧ nextHourStart c3Env.now = ⟨6, 0, 0, 0⟩
    ∧ (UtcTime.mk 5 0 0 0) ≠ nextHourStart c3Env.now := by decide

/-- Claim C3, amended: on both media-retrieval endpoints, a post-increment
count of 30 (`QUOTA_PER_HOUR`) is accepted (the response is never the 429
quota rejection), while a count of 31 is rejected with a 429 whose JSON body
carries the limit and a `reset_at` equal to the start of the CURRENT hour —
the request's arrival time truncated to the hour — not the start of the next
hour. -/
theorem c3_amended_threshold_reset_current_hour :
    (∀ env : StreamEnv,
       pyTruthy (verify_jwt_and_get_user env.auth) = true →
       env.quota + 1 = QUOTA_PER_HOUR + 1 →
       (tiktok_stream env).result
         = .json 429 [("error", .str "Quota exceeded"), ("limit", .num QUOTA_PER_HOUR),
                      ("reset_at", .time (hourStart env.now))])
    ∧ (∀ env : StreamEnv,
       pyTruthy (verify_jwt_and_get_user env.auth) = true →
       env.quota + 1 = QUOTA_PER_HOUR →
       (tiktok_stream env).result.statusOf ≠ 429)
    ∧ (∀ (env : Mp3Env) (fs : Fs) (td : String),
       pyTruthy (verify_jwt_and_get_user env.auth) = true →
       env.quota + 1 = QUOTA_PER_HOUR + 1 →
       (tiktok_mp3 env fs td).result
         = .json 429 [("error", .str "Quota exceeded"), ("limit", .num QUOTA_PER_HOUR),
                      ("reset_at", .time (hourStart env.now))])
    ∧ (∀ (env : Mp3Env) (fs : Fs) (td : String),
       pyTruthy (verify_jwt_and_get_user env.auth) = true →
       env.quota + 1 = QUOTA_PER_HOUR →
       (tiktok_mp3 env fs td).result.statusOf ≠ 429) := by
  refine ⟨?_, ?_, ?_, ?_⟩
  · intro env hA hQ
    have hQ2 : env.quota + 1 > QUOTA_PER_HOUR := by
      rw [hQ]; exact Nat.lt_succ_self _
    simp [tiktok_stream, increment_usage, hA, hQ2]
  · intro env hA hQ
    have hQ2 : ¬ (env.quota + 1 > QUOTA_PER_HOUR) := by
      rw [hQ]; exact Nat.lt_irrefl _
    cases hU : urlFalsyOrInvalid (streamRequestUrl env.jsonBody) with
    | true => simp [tiktok_stream, increment_usage, hA, hQ2, hU, HandlerResult.statusOf]
    | false =>
      rcases hE : env.extractInfo with msg | fsz
      · simp [tiktok_stream, increment_usage, hA, hQ2, hU, hE, HandlerResult.statusOf]
      · rcases fsz with _ | n
        · simp [tiktok_stream, increment_usage, hA, hQ2, hU, hE, HandlerResult.statusOf]
        · cases hn : (n == 0) <;>
            simp [tiktok_stream, increment_usage, hA, hQ2, hU, hE, hn, HandlerResult.statusOf]
  · intro env fs td hA hQ
    have hQ2 : env.quota + 1 > QUOTA_PER_HOUR := by
      rw [hQ]; exact Nat.lt_succ_self _
    simp [tiktok_mp3, increment_usage, hA, hQ2]
  · intro env fs td hA hQ
    have hQ2 : ¬ (env.quota + 1 > QUOTA_PER_HOUR) := by
      rw [hQ]; exact Nat.lt_irrefl _
    rcases hB : mp3RequestUrl env.jsonBody with e | u
    · simp [tiktok_mp3, increment_usage, hA, hQ2, hB, HandlerResult.statusOf]
    · cases hU : urlFalsyOrInvalid u with
      | true => simp [tiktok_mp3, increment_usage, hA, hQ2, hB, hU, HandlerResult.statusOf]
      | false =>
        cases hD : env.downloadOk <;>
          cases hV : sizeAtLeast env.videoSize 1024 <;>
            cases hF : env.ffmpegOk <;>
              cases hAu : sizeAtLeast env.audioSize 1024 <;>
                simp [tiktok_mp3, increment_usage, hA, hQ2, hB, hU, hD, hV, hF, hAu,
                      HandlerResult.statusOf]

/-- Claim C3, witness: the rejection half at the concrete over-quota request
of the counterexample, and the acceptance half at the same request with a
bucket count of 29 (post-increment 30). -/
theorem c3_witness :
    (tiktok_stream c3Env).result
      = .json 429 [("error", .str "Quota exceeded"), ("limit", .num QUOTA_PER_HOUR),
                   ("reset_at", .time (hourStart c3Env.now))]
    ∧ (tiktok_stream { c3Env with quota := 29 }).result.statusOf ≠ 429 :=
  ⟨c3_amended_threshold_reset_current_hour.1 c3Env (by decide) (by decide),
   c3_amended_threshold_reset_current_hour.2.1 { c3Env with quota := 29 }
     (by decide) (by decide)⟩

end TheVideo
